import Mathlib

/-!
Shallow embedding of the Transparent Interception & Relay Engine
(`src/proxy/transparent_proxy.py` together with the persisted models of
`src/db/database.py`), and proofs about it.

Modelling conventions:
* A byte is a `Nat` (values below 256 where it matters); a chunk read from a
  socket is a `List Nat`.
* Each relay direction's interaction with its pair of sockets is a list of
  `SockEvent`s: what `loop.sock_recv` returned and whether the subsequent
  `loop.sock_sendall` succeeded.
* Wall-clock readings (`datetime.utcnow()`) are `Nat` tick values supplied as
  inputs; a duration is their `Int` difference.
* The SQLAlchemy session is a pair of lists (`connections` table, `devices`
  table); `db.add` is list append, the `filter(...).first()` lookup walks the
  list front to back.  `log_connection`/`handle_client` model the flushed
  writes (the behaviour when `db.commit()` succeeds);
  `log_connection_tx`/`handle_client_tx` additionally model the commit
  outcome under the unique index on `devices.mac_address`, whose violation
  rolls the whole session transaction back.
-/

/-- A chunk of bytes moved by one `sock_recv`/`sock_sendall` round. -/
abbrev Chunk := List Nat

/-- One iteration of the `forward_data` loop, as observed on the wire:
`ok d` — `sock_recv` returned chunk `d` (possibly empty would mean eof, so
`ok` carries the data actually forwarded by a successful `sock_sendall`);
`eof` — `sock_recv` returned zero bytes (orderly peer close);
`recvFail` — `sock_recv` raised;
`sendFail d` — `sock_recv` returned `d` but `sock_sendall` raised. -/
inductive SockEvent : Type where
  | ok (data : Chunk)
  | eof
  | recvFail
  | sendFail (data : Chunk)
deriving DecidableEq, Repr

/-- Which counter a `forward_data` task updates (the `direction` argument:
`'sent'` for client→destination, `'received'` for destination→client). -/
inductive Direction : Type where
  | sent
  | received
deriving DecidableEq, Repr

/-- The `conn_log` dictionary built in `handle_client` before connecting. -/
structure ConnLog : Type where
  src_ip : String
  src_port : Nat
  dst_ip : String
  dst_port : Nat
  bytes_sent : Nat
  bytes_received : Nat
  start_time : Nat
deriving DecidableEq, Repr

/-- `TransparentProxy.forward_data`: repeatedly `sock_recv`; an empty read
breaks the loop; otherwise `sock_sendall` the chunk and only then increment
the direction's own counter by `len(data)`.  Any exception (from recv or
send) is caught, ending the loop.  The function returns the updated
`conn_log`. -/
def forward_data (log : ConnLog) (direction : Direction) : List SockEvent → ConnLog
  | [] => log
  | SockEvent.ok d :: rest =>
      let log1 :=
        match direction with
        | Direction.sent => { log with bytes_sent := log.bytes_sent + d.length }
        | Direction.received => { log with bytes_received := log.bytes_received + d.length }
      forward_data log1 direction rest
  | SockEvent.eof :: _ => log
  | SockEvent.recvFail :: _ => log
  | SockEvent.sendFail _ :: _ => log

/-- Spec-side notion for the byte-accounting property: the chunks that were
read from the source socket and successfully forwarded to the destination
socket (everything up to the first eof or I/O failure). -/
def forwardedChunks : List SockEvent → List Chunk
  | SockEvent.ok d :: rest => d :: forwardedChunks rest
  | _ => []

/-- Total number of bytes in a list of chunks. -/
def chunkTotal (cs : List Chunk) : Nat := (cs.map List.length).sum

/-- Big-endian (network byte order) integer value of a byte string, as
`struct.unpack` computes it for the `"!"` prefix. -/
def beUint16 (bs : List Nat) : Nat := bs.foldl (fun acc b => 256 * acc + b) 0

/-- `struct.unpack("!2xH4s8x", dst)`: requires a 16-byte buffer; skips two pad
bytes, reads a big-endian unsigned 16-bit integer, reads a 4-byte string,
skips eight pad bytes.  `none` models the `struct.error` raised on a buffer of
the wrong size. -/
def unpack_2xH4s8x (buf : List Nat) : Option (Nat × List Nat) :=
  if buf.length = 16 then
    let rest2 := buf.drop 2
    some (beUint16 (rest2.take 2), ((rest2.drop 2).take 4))
  else
    none

/-- `socket.inet_ntoa`: dotted-quad decimal rendering of a 4-byte string. -/
def inet_ntoa (bs : List Nat) : String :=
  String.intercalate "." (bs.map (fun b => toString b))

/-- The destination-resolution step of `handle_client`: unpack the
`SO_ORIGINAL_DST` buffer into `(dst_port, dst_ip)` and render the address. -/
def get_original_dst (buf : List Nat) : Option (Nat × String) :=
  (unpack_2xH4s8x buf).map (fun p => (p.1, inet_ntoa p.2))

/-- A row of the `connections` table (class `Connection` in `database.py`),
restricted to the columns `log_connection` writes. -/
structure Connection : Type where
  timestamp : Nat
  src_ip : String
  src_port : Nat
  dst_ip : String
  dst_port : Nat
  bytes_sent : Nat
  bytes_received : Nat
  duration : Int
  status : String
deriving DecidableEq, Repr

/-- A row of the `devices` table (class `Device` in `database.py`),
restricted to the columns `log_connection` reads and writes. -/
structure Device : Type where
  ip_address : String
  mac_address : String
  first_seen : Nat
  last_seen : Nat
  total_bytes_sent : Nat
  total_bytes_received : Nat
  connection_count : Nat
deriving DecidableEq, Repr

/-- The persistent store: the two tables `log_connection` touches. -/
structure TrafficDB : Type where
  connections : List Connection
  devices : List Device
deriving DecidableEq, Repr

/-- The empty database produced by `init_database`. -/
def TrafficDB.empty : TrafficDB := ⟨[], []⟩

/-- The `db.query(Device).filter(Device.ip_address == src_ip).first()` branch
of `log_connection`, at the ORM level (before the commit): the first device
matching the source address is updated in place (bump `last_seen`, add the
session's byte counts, increment `connection_count`); if none matches, a new
`Device` row is added with the session's totals, `connection_count = 1` and
`mac_address = 'unknown'`.  Whether this flush survives the commit — the new
row's `'unknown'` mac collides with the unique index on `devices.mac_address`
whenever another `'unknown'` row already exists — is modelled in
`log_connection_tx`. -/
def upsertDevice (ip : String) (bs br : Nat) (now : Nat) : List Device → List Device
  | [] => [⟨ip, "unknown", now, now, bs, br, 1⟩]
  | d :: rest =>
      if d.ip_address = ip then
        { d with
            last_seen := now,
            total_bytes_sent := d.total_bytes_sent + bs,
            total_bytes_received := d.total_bytes_received + br,
            connection_count := d.connection_count + 1 } :: rest
      else
        d :: upsertDevice ip bs br now rest

/-- The writes of `TransparentProxy.log_connection`, i.e. its behaviour when
`db.commit()` succeeds: compute the duration from the `start_time` stored in
`conn_log`, append one `Connection` row with `status='closed'`, and upsert
the source device.  `now` is the `datetime.utcnow()` reading at logging time.
The commit outcome itself — which can discard both writes, see
`log_connection_tx` — is modelled separately. -/
def log_connection (db : TrafficDB) (log : ConnLog) (now : Nat) : TrafficDB :=
  let duration : Int := (now : Int) - (log.start_time : Int)
  let record : Connection :=
    ⟨now, log.src_ip, log.src_port, log.dst_ip, log.dst_port,
      log.bytes_sent, log.bytes_received, duration, "closed"⟩
  { connections := db.connections ++ [record],
    devices := upsertDevice log.src_ip log.bytes_sent log.bytes_received now db.devices }

/-- `TransparentProxy.log_connection` down to the commit.  `database.py`
declares `Device.mac_address` with `unique=True`, and every device row this
code creates carries the literal `mac_address='unknown'` (nothing in the
repository ever updates a mac).  So when the source has no device row yet and
some existing row already holds the `'unknown'` mac, the flushed device
INSERT violates the unique index: `db.commit()` raises `IntegrityError`, the
bare `except` logs and swallows it, and `db.close()` rolls the open
transaction back — the session's `Connection` row is discarded together with
the device row.  Otherwise (device found, or no `'unknown'` row yet) the
commit succeeds and the flush of `log_connection` persists. -/
def log_connection_tx (db : TrafficDB) (log : ConnLog) (now : Nat) : TrafficDB :=
  if log.src_ip ∉ db.devices.map Device.ip_address ∧
      "unknown" ∈ db.devices.map Device.mac_address then
    db
  else
    log_connection db log now

/-- What happened after destination resolution succeeded for one accepted
connection: the outbound `sock_connect` raised (or timed out), or the session
relayed with the given per-direction event traces.  `tConn` is the
`utcnow` tick at which the outbound connect completed; the source does not
read it, it is carried so that properties about it can be stated. -/
inductive SessionEvents : Type where
  | connectFailure
  | relay (tConn : Nat) (ctos : List SockEvent) (stoc : List SockEvent)
deriving DecidableEq, Repr

/-- Observable outcome of one `handle_client` call: the database afterwards,
and whether the client socket was closed, the outbound socket object was
created, and the outbound socket was closed by the time the call returned. -/
structure SessionResult : Type where
  db : TrafficDB
  clientClosed : Bool
  destCreated : Bool
  destClosed : Bool
deriving DecidableEq, Repr

/-- One accepted connection, as the inputs that drive `handle_client`:
source address and port (`client_addr`), the `SO_ORIGINAL_DST` buffer
(`none` when `getsockopt` raised), the `utcnow` tick at which `conn_log`
was built (before the outbound connect), what happened next, and the
`utcnow` tick at which `log_connection` ran. -/
structure SessionCall : Type where
  src_ip : String
  src_port : Nat
  dstBuf : Option (List Nat)
  tStart : Nat
  ev : SessionEvents
  tLog : Nat
deriving DecidableEq, Repr

/-- `TransparentProxy.handle_client` for one connection.
* If `getsockopt(SO_ORIGINAL_DST)` raises or the buffer does not unpack,
  the client socket is closed and the coroutine returns: no record, no
  device change, and the `finally` block's `dest_socket.close()` hits a
  `NameError` swallowed by the bare `except` (no outbound socket existed).
* If the outbound connect raises, the client socket is closed and the
  coroutine returns; the already-created outbound socket object is closed
  by the `finally` block.
* Otherwise both `forward_data` tasks run to completion (the two write
  disjoint counters, so running them in sequence is equivalent to the
  concurrent `asyncio.gather`), `log_connection` commits, and both sockets
  are closed in the `finally` block. -/
def handle_client (db : TrafficDB) (s : SessionCall) : SessionResult :=
  match s.dstBuf.bind get_original_dst with
  | none => ⟨db, true, false, false⟩
  | some dst =>
      let conn_log : ConnLog :=
        ⟨s.src_ip, s.src_port, dst.2, dst.1, 0, 0, s.tStart⟩
      match s.ev with
      | SessionEvents.connectFailure => ⟨db, true, true, true⟩
      | SessionEvents.relay _ ctos stoc =>
          let log1 := forward_data conn_log Direction.sent ctos
          let log2 := forward_data log1 Direction.received stoc
          ⟨log_connection db log2 s.tLog, true, true, true⟩

/-- `TransparentProxy.handle_client` with the teardown commit modelled down
to its outcome: identical to `handle_client` except that the final logging
step is `log_connection_tx`, so a unique-index violation at commit leaves the
database unchanged instead of persisting the session. -/
def handle_client_tx (db : TrafficDB) (s : SessionCall) : SessionResult :=
  match s.dstBuf.bind get_original_dst with
  | none => ⟨db, true, false, false⟩
  | some dst =>
      let conn_log : ConnLog :=
        ⟨s.src_ip, s.src_port, dst.2, dst.1, 0, 0, s.tStart⟩
      match s.ev with
      | SessionEvents.connectFailure => ⟨db, true, true, true⟩
      | SessionEvents.relay _ ctos stoc =>
          let log1 := forward_data conn_log Direction.sent ctos
          let log2 := forward_data log1 Direction.received stoc
          ⟨log_connection_tx db log2 s.tLog, true, true, true⟩

/-- The `TransparentProxy` object: the configured port and the
`self.connections` dictionary (`# Track active connections`), modelled as an
association list from connection id to a session tick. -/
structure TransparentProxy : Type where
  port : Nat
  connections : List (String × Nat)
deriving DecidableEq, Repr

/-- `TransparentProxy.__init__`: store the port and set
`self.connections = empty dict`. -/
def TransparentProxy.init (port : Nat) : TransparentProxy := ⟨port, []⟩

/-- The accept loop of `TransparentProxy.start`, driven by a list of accepted
connections: each is dispatched to `handle_client`.  `handle_client` reads no
attribute of `self` other than methods and writes none, so the proxy object is
returned unchanged by each dispatch. -/
def runProxy (p : TransparentProxy) (db : TrafficDB) : List SessionCall → TransparentProxy × TrafficDB
  | [] => (p, db)
  | s :: rest => runProxy p (handle_client db s).db rest

/-- How one relay direction ended: orderly peer close (zero-byte read) or an
I/O error caught by `forward_data`'s `except` clause. -/
inductive DirEnd : Type where
  | eof
  | err
deriving DecidableEq, Repr

/-- The state of one `forward_data` task: still looping with the given events
pending, or its loop has exited. -/
inductive DirState : Type where
  | running (pending : List SockEvent)
  | ended (e : DirEnd)
deriving DecidableEq, Repr

/-- Whether a direction's loop has exited. -/
def DirState.isEnded : DirState → Bool
  | DirState.running _ => false
  | DirState.ended _ => true

/-- One step of a single `forward_data` task: forward a chunk and stay in the
loop, or exit on a zero-byte read (`break`), or exit on an exception from
recv or send. -/
inductive DirStep : DirState → DirState → Prop where
  | fwd (d : Chunk) (rest : List SockEvent) :
      DirStep (DirState.running (SockEvent.ok d :: rest)) (DirState.running rest)
  | eofClose (rest : List SockEvent) :
      DirStep (DirState.running (SockEvent.eof :: rest)) (DirState.ended DirEnd.eof)
  | recvErr (rest : List SockEvent) :
      DirStep (DirState.running (SockEvent.recvFail :: rest)) (DirState.ended DirEnd.err)
  | sendErr (d : Chunk) (rest : List SockEvent) :
      DirStep (DirState.running (SockEvent.sendFail d :: rest)) (DirState.ended DirEnd.err)

/-- The relaying phase of one session: the two `forward_data` tasks and the
flag recording whether `log_connection` has run.  Mirrors
`asyncio.gather(client_to_server, server_to_client)` followed by
`self.log_connection(conn_log)`. -/
structure RelayState : Type where
  ctos : DirState
  stoc : DirState
  logged : Bool
deriving DecidableEq, Repr

/-- Interleaving semantics of the relaying phase: either task may take its
next step while the session is not yet logged; `log_connection` runs only
once both tasks have exited (that is what `await asyncio.gather` waits
for). -/
inductive RelayStep : RelayState → RelayState → Prop where
  | stepCtos {c c' : DirState} (s : DirState) (h : DirStep c c') :
      RelayStep ⟨c, s, false⟩ ⟨c', s, false⟩
  | stepStoc (c : DirState) {s s' : DirState} (h : DirStep s s') :
      RelayStep ⟨c, s, false⟩ ⟨c, s', false⟩
  | logCommit (e1 e2 : DirEnd) :
      RelayStep ⟨DirState.ended e1, DirState.ended e2, false⟩
                ⟨DirState.ended e1, DirState.ended e2, true⟩

/-- Start of the relaying phase: both directions running, nothing logged. -/
def initRelay (ctos stoc : List SockEvent) : RelayState :=
  ⟨DirState.running ctos, DirState.running stoc, false⟩

/-- A sample 16-byte `SO_ORIGINAL_DST` buffer: sockaddr family bytes, port
443 in network byte order, address 93.184.216.34, then eight padding
bytes. -/
def sampleBuf : List Nat := [2, 0, 1, 187, 93, 184, 216, 34, 10, 0, 0, 1, 0, 0, 0, 0]

/-- First session of the failing input for the device-creation contract: a
completed relayed connection from the fresh source 10.0.0.21.  Its commit
succeeds (the device table holds no `'unknown'` row yet) and creates the
first sentinel-mac device. -/
def collisionCall1 : SessionCall :=
  ⟨"10.0.0.21", 51000, some sampleBuf, 0,
    SessionEvents.relay 1 [SockEvent.ok [1]] [SockEvent.eof], 2⟩

/-- Second session of the failing input: a completed relayed connection from
the distinct fresh source 10.0.0.22.  Its device INSERT carries the same
`'unknown'` mac as the row `collisionCall1` created, violating the unique
index at commit. -/
def collisionCall2 : SessionCall :=
  ⟨"10.0.0.22", 52000, some sampleBuf, 3,
    SessionEvents.relay 4 [SockEvent.ok [2, 3]] [SockEvent.eof], 5⟩

/-- `forward_data` with `direction='sent'` adds to `bytes_sent` exactly the
total length of the chunks read and successfully forwarded, and touches no
other field of `conn_log`. -/
theorem forward_data_sent (log : ConnLog) (tr : List SockEvent) :
    forward_data log Direction.sent tr =
      { log with bytes_sent := log.bytes_sent + chunkTotal (forwardedChunks tr) } := by
  induction tr generalizing log with
  | nil => simp [forward_data, forwardedChunks, chunkTotal]
  | cons e rest ih =>
      cases e with
      | ok d => simp [forward_data, forwardedChunks, chunkTotal, ih, Nat.add_assoc]
      | eof => simp [forward_data, forwardedChunks, chunkTotal]
      | recvFail => simp [forward_data, forwardedChunks, chunkTotal]
      | sendFail d => simp [forward_data, forwardedChunks, chunkTotal]

/-- `forward_data` with `direction='received'` adds to `bytes_received`
exactly the total length of the chunks read and successfully forwarded, and
touches no other field of `conn_log`. -/
theorem forward_data_received (log : ConnLog) (tr : List SockEvent) :
    forward_data log Direction.received tr =
      { log with bytes_received := log.bytes_received + chunkTotal (forwardedChunks tr) } := by
  induction tr generalizing log with
  | nil => simp [forward_data, forwardedChunks, chunkTotal]
  | cons e rest ih =>
      cases e with
      | ok d => simp [forward_data, forwardedChunks, chunkTotal, ih, Nat.add_assoc]
      | eof => simp [forward_data, forwardedChunks, chunkTotal]
      | recvFail => simp [forward_data, forwardedChunks, chunkTotal]
      | sendFail d => simp [forward_data, forwardedChunks, chunkTotal]

/-- On a 16-byte buffer the destination resolver succeeds and returns the
unpacked port and rendered address. -/
theorem get_original_dst_of_length (buf : List Nat) (hlen : buf.length = 16) :
    get_original_dst buf =
      some (beUint16 ((buf.drop 2).take 2), inet_ntoa (((buf.drop 2).drop 2).take 4)) := by
  simp [get_original_dst, unpack_2xH4s8x, hlen]

/-- A session that relays (resolution and connect both succeeded) ends in
`log_connection` applied to the fully accumulated `conn_log`. -/
theorem handle_client_relay (db : TrafficDB) (sip : String) (sp : Nat) (buf : List Nat)
    (t0 tc t1 : Nat) (ctos stoc : List SockEvent) (hlen : buf.length = 16) :
    handle_client db ⟨sip, sp, some buf, t0, SessionEvents.relay tc ctos stoc, t1⟩ =
      ⟨log_connection db
        ⟨sip, sp, inet_ntoa (((buf.drop 2).drop 2).take 4), beUint16 ((buf.drop 2).take 2),
          chunkTotal (forwardedChunks ctos), chunkTotal (forwardedChunks stoc), t0⟩ t1,
        true, true, true⟩ := by
  simp [handle_client, get_original_dst_of_length buf hlen, forward_data_sent,
    forward_data_received]

/-- Every `handle_client` call either leaves the database untouched (aborted
session) or commits exactly one `log_connection`. -/
theorem handle_client_db_cases (db : TrafficDB) (s : SessionCall) :
    (handle_client db s).db = db ∨
      ∃ (log : ConnLog) (now : Nat), (handle_client db s).db = log_connection db log now := by
  unfold handle_client
  cases h : s.dstBuf.bind get_original_dst with
  | none => left; rfl
  | some dst =>
      cases hev : s.ev with
      | connectFailure => left; rfl
      | relay tc ctos stoc => right; exact ⟨_, _, rfl⟩

/-- A `RelayStep` that sets the logged flag starts from (and ends in) a state
where both directions have ended. -/
theorem relayStep_logged (a b : RelayState) (h : RelayStep a b) (hl : b.logged = true) :
    b.ctos.isEnded = true ∧ b.stoc.isEnded = true := by
  cases h with
  | stepCtos s h => simp at hl
  | stepStoc c h => simp at hl
  | logCommit e1 e2 => exact ⟨rfl, rfl⟩

/-- In any state reachable from the start of the relaying phase, the session
has been logged only if both directions have ended. -/
theorem reachable_logged_ended (ctos stoc : List SockEvent) (s : RelayState)
    (h : Relation.ReflTransGen RelayStep (initRelay ctos stoc) s) (hl : s.logged = true) :
    s.ctos.isEnded = true ∧ s.stoc.isEnded = true := by
  rcases Relation.ReflTransGen.cases_tail h with h1 | ⟨c, hc, hstep⟩
  · rw [h1] at hl
    simp [initRelay] at hl
  · exact relayStep_logged c s hstep hl

/-- An error event at the head of the remaining trace ends the direction: the
chunks forwarded are exactly those read and sent before the error. -/
theorem forwardedChunks_error (pre : List Chunk) (e : SockEvent) (rest : List SockEvent)
    (herr : e = SockEvent.recvFail ∨ ∃ d, e = SockEvent.sendFail d) :
    forwardedChunks (pre.map SockEvent.ok ++ e :: rest) = pre := by
  induction pre with
  | nil => rcases herr with h | ⟨d, h⟩ <;> subst h <;> simp [forwardedChunks]
  | cons c cs ih => simp [forwardedChunks, ih]

/-- Dispatching sessions never mutates the proxy object itself. -/
theorem runProxy_fst (ss : List SessionCall) : ∀ (p : TransparentProxy) (db : TrafficDB),
    (runProxy p db ss).1 = p := by
  induction ss with
  | nil => intro p db; rfl
  | cons s rest ih => intro p db; rw [runProxy]; exact ih p _

/-- C1: for every session that reaches Closed, the persisted record's
`bytes_sent` equals the exact total of the chunks read from the client socket
and successfully forwarded to the destination socket, and symmetrically
`bytes_received` for the destination-to-client direction; a chunk whose
forward fails is not counted, so each counter reflects only bytes whose
forward succeeded. -/
theorem relay_session_byte_accounting (db : TrafficDB) (sip : String) (sp : Nat)
    (buf : List Nat) (t0 tc t1 : Nat) (ctos stoc : List SockEvent)
    (hlen : buf.length = 16) :
    ∃ rec : Connection,
      (handle_client db ⟨sip, sp, some buf, t0, SessionEvents.relay tc ctos stoc, t1⟩).db.connections
        = db.connections ++ [rec] ∧
      rec.bytes_sent = chunkTotal (forwardedChunks ctos) ∧
      rec.bytes_received = chunkTotal (forwardedChunks stoc) := by
  rw [handle_client_relay db sip sp buf t0 tc t1 ctos stoc hlen]
  exact ⟨_, rfl, rfl, rfl⟩

/-- Witness for C1: a concrete session forwarding 3 bytes client→destination
and 1 byte destination→client. -/
theorem relay_session_byte_accounting_witness :
    sampleBuf.length = 16 ∧
    (∃ rec : Connection,
      (handle_client TrafficDB.empty
        ⟨"192.168.1.7", 50000, some sampleBuf, 3,
          SessionEvents.relay 4 [SockEvent.ok [1, 2, 3]] [SockEvent.ok [9], SockEvent.eof], 9⟩).db.connections
        = TrafficDB.empty.connections ++ [rec] ∧
      rec.bytes_sent = chunkTotal (forwardedChunks [SockEvent.ok [1, 2, 3]]) ∧
      rec.bytes_received = chunkTotal (forwardedChunks [SockEvent.ok [9], SockEvent.eof])) :=
  ⟨rfl, relay_session_byte_accounting TrafficDB.empty "192.168.1.7" 50000 sampleBuf 3 4 9
    [SockEvent.ok [1, 2, 3]] [SockEvent.ok [9], SockEvent.eof] rfl⟩

/-- C2: in the relaying phase, a zero-byte read ends only its own direction
(the other direction's state is untouched and it can still take every one of
its steps), and in every reachable state the session has been handed to
accounting (`logged`) only after both directions have ended. -/
theorem relay_half_close_until_both_ended (ctos stoc : List SockEvent) (s : RelayState)
    (h : Relation.ReflTransGen RelayStep (initRelay ctos stoc) s) :
    (s.logged = true → s.ctos.isEnded = true ∧ s.stoc.isEnded = true) ∧
    (∀ (rest : List SockEvent) (other : DirState),
        RelayStep ⟨DirState.running (SockEvent.eof :: rest), other, false⟩
                  ⟨DirState.ended DirEnd.eof, other, false⟩) ∧
    (∀ (e : DirEnd) (s1 s2 : DirState), DirStep s1 s2 →
        RelayStep ⟨DirState.ended e, s1, false⟩ ⟨DirState.ended e, s2, false⟩) := by
  refine ⟨fun hl => reachable_logged_ended ctos stoc s h hl, ?_, ?_⟩
  · intro rest other
    exact RelayStep.stepCtos other (DirStep.eofClose rest)
  · intro e s1 s2 hstep
    exact RelayStep.stepStoc (DirState.ended e) hstep

/-- Witness for C2: the client direction closes first, the server direction
then errors, and only then is the session logged. -/
theorem relay_half_close_until_both_ended_witness :
    Relation.ReflTransGen RelayStep (initRelay [SockEvent.eof] [SockEvent.recvFail])
      ⟨DirState.ended DirEnd.eof, DirState.ended DirEnd.err, true⟩ ∧
    (((⟨DirState.ended DirEnd.eof, DirState.ended DirEnd.err, true⟩ : RelayState).logged = true →
        (⟨DirState.ended DirEnd.eof, DirState.ended DirEnd.err, true⟩ : RelayState).ctos.isEnded = true ∧
        (⟨DirState.ended DirEnd.eof, DirState.ended DirEnd.err, true⟩ : RelayState).stoc.isEnded = true) ∧
      (∀ (rest : List SockEvent) (other : DirState),
          RelayStep ⟨DirState.running (SockEvent.eof :: rest), other, false⟩
                    ⟨DirState.ended DirEnd.eof, other, false⟩) ∧
      (∀ (e : DirEnd) (s1 s2 : DirState), DirStep s1 s2 →
          RelayStep ⟨DirState.ended e, s1, false⟩ ⟨DirState.ended e, s2, false⟩)) :=
  have hreach : Relation.ReflTransGen RelayStep (initRelay [SockEvent.eof] [SockEvent.recvFail])
      ⟨DirState.ended DirEnd.eof, DirState.ended DirEnd.err, true⟩ :=
    Relation.ReflTransGen.head (RelayStep.stepCtos _ (DirStep.eofClose []))
      (Relation.ReflTransGen.head (RelayStep.stepStoc _ (DirStep.recvErr []))
        (Relation.ReflTransGen.single (RelayStep.logCommit DirEnd.eof DirEnd.err)))
  ⟨hreach, relay_half_close_until_both_ended [SockEvent.eof] [SockEvent.recvFail] _ hreach⟩

/-- Counterexample to C3 as stated: a session in which both directions end
with an I/O error is persisted with status `closed`, not `error` — the code
writes the literal `'closed'` unconditionally. -/
theorem status_error_session_counterexample :
    ((handle_client TrafficDB.empty
        ⟨"10.0.0.5", 40000, some sampleBuf, 100,
          SessionEvents.relay 100 [SockEvent.sendFail [1, 2, 3]] [SockEvent.recvFail], 130⟩).db.connections.map
        Connection.status = ["closed"]) ∧ "closed" ≠ "error" := by
  exact ⟨rfl, by decide⟩

/-- C3 amended: every persisted `ConnectionRecord` carries the terminal
status `closed`, regardless of how the session's directions ended; `timeout`
and `error` are never written (sessions that fail before relaying produce no
record at all). -/
theorem record_status_always_closed (port : Nat) (ss : List SessionCall) (c : Connection)
    (hc : c ∈ (runProxy (TransparentProxy.init port) TrafficDB.empty ss).2.connections) :
    c.status = "closed" := by
  have key : ∀ (ss : List SessionCall) (p : TransparentProxy) (db : TrafficDB),
      (∀ c ∈ db.connections, c.status = "closed") →
      ∀ c ∈ (runProxy p db ss).2.connections, c.status = "closed" := by
    intro ss
    induction ss with
    | nil => intro p db h; exact h
    | cons s rest ih =>
        intro p db h
        rw [runProxy]
        refine ih p _ ?_
        rcases handle_client_db_cases db s with h1 | ⟨log, now, h1⟩
        · rw [h1]; exact h
        · rw [h1]
          intro c hc
          rw [log_connection] at hc
          simp only [List.mem_append, List.mem_singleton] at hc
          rcases hc with hc | hc
          · exact h c hc
          · rw [hc]
  exact key ss _ _ (by simp [TrafficDB.empty]) c hc

/-- Witness for C3 amended: the record persisted by a concrete clean session
has status `closed`. -/
theorem record_status_always_closed_witness :
    (⟨9, "10.0.0.7", 41000, inet_ntoa [93, 184, 216, 34], 443, 2, 0, (8 : Int), "closed"⟩ : Connection) ∈
      (runProxy (TransparentProxy.init 8080) TrafficDB.empty
        [⟨"10.0.0.7", 41000, some sampleBuf, 1,
          SessionEvents.relay 2 [SockEvent.ok [5, 6], SockEvent.eof] [SockEvent.eof], 9⟩]).2.connections ∧
    (⟨9, "10.0.0.7", 41000, inet_ntoa [93, 184, 216, 34], 443, 2, 0, (8 : Int), "closed"⟩ : Connection).status
      = "closed" :=
  have hmem : (⟨9, "10.0.0.7", 41000, inet_ntoa [93, 184, 216, 34], 443, 2, 0, (8 : Int), "closed"⟩ : Connection) ∈
      (runProxy (TransparentProxy.init 8080) TrafficDB.empty
        [⟨"10.0.0.7", 41000, some sampleBuf, 1,
          SessionEvents.relay 2 [SockEvent.ok [5, 6], SockEvent.eof] [SockEvent.eof], 9⟩]).2.connections :=
    List.mem_singleton.mpr rfl
  ⟨hmem, record_status_always_closed 8080 _ _ hmem⟩

/-- C4: evaluation of the code at the failing input.  The claim's
"a missing device is created seeded with the session's totals,
`connection_count = 1`, and the hardware-address sentinel" fails in the
program: the sentinel itself (`mac_address='unknown'` on every created row)
collides with the unique index on `devices.mac_address` as soon as a second
fresh source appears, `db.commit()` raises, and the whole transaction is
rolled back.  Starting from the empty store, a completed session from
10.0.0.21 followed by a completed session from 10.0.0.22 leaves the database
exactly as after the first session: no device row for 10.0.0.22 is created
(with `connection_count = 1` or otherwise) and even its connection record is
discarded. -/
theorem device_sentinel_unique_collision :
    (handle_client_tx (handle_client_tx TrafficDB.empty collisionCall1).db collisionCall2).db
      = (handle_client_tx TrafficDB.empty collisionCall1).db ∧
    (handle_client_tx TrafficDB.empty collisionCall1).db.devices.map Device.ip_address
      = ["10.0.0.21"] ∧
    "10.0.0.22" ∉
      (handle_client_tx (handle_client_tx TrafficDB.empty collisionCall1).db
        collisionCall2).db.devices.map Device.ip_address ∧
    (handle_client_tx (handle_client_tx TrafficDB.empty collisionCall1).db
        collisionCall2).db.connections.length = 1 := by
  exact ⟨rfl, rfl, by decide, rfl⟩

/-- C5: for every 16-byte `SO_ORIGINAL_DST` buffer, the resolver decodes the
port as the big-endian 16-bit integer at byte offsets 2–3 and the address as
the dotted-quad rendering of bytes 4–7; the two leading and eight trailing
bytes are ignored (buffers agreeing on bytes 2–7 decode identically). -/
theorem original_dst_decode (buf : List Nat) (hlen : buf.length = 16) :
    get_original_dst buf =
      some (256 * buf.getD 2 0 + buf.getD 3 0,
        inet_ntoa [buf.getD 4 0, buf.getD 5 0, buf.getD 6 0, buf.getD 7 0]) ∧
    ∀ buf2 : List Nat, buf2.length = 16 →
      (∀ i : Nat, 2 ≤ i → i ≤ 7 → buf.getD i 0 = buf2.getD i 0) →
      get_original_dst buf = get_original_dst buf2 := by
  have key : ∀ b : List Nat, b.length = 16 →
      get_original_dst b =
        some (256 * b.getD 2 0 + b.getD 3 0,
          inet_ntoa [b.getD 4 0, b.getD 5 0, b.getD 6 0, b.getD 7 0]) := by
    intro b hb
    rcases b with _ | ⟨a0, b⟩; · simp at hb
    rcases b with _ | ⟨a1, b⟩; · simp at hb
    rcases b with _ | ⟨a2, b⟩; · simp at hb
    rcases b with _ | ⟨a3, b⟩; · simp at hb
    rcases b with _ | ⟨a4, b⟩; · simp at hb
    rcases b with _ | ⟨a5, b⟩; · simp at hb
    rcases b with _ | ⟨a6, b⟩; · simp at hb
    rcases b with _ | ⟨a7, b⟩; · simp at hb
    simp only [List.length_cons] at hb
    have hb16 : (a0 :: a1 :: a2 :: a3 :: a4 :: a5 :: a6 :: a7 :: b).length = 16 := by
      simp only [List.length_cons]; omega
    simp [get_original_dst, unpack_2xH4s8x, beUint16, List.getD, hb16]
  refine ⟨key buf hlen, ?_⟩
  intro buf2 h2 hag
  rw [key buf hlen, key buf2 h2,
    hag 2 (by norm_num) (by norm_num), hag 3 (by norm_num) (by norm_num),
    hag 4 (by norm_num) (by norm_num), hag 5 (by norm_num) (by norm_num),
    hag 6 (by norm_num) (by norm_num), hag 7 (by norm_num) (by norm_num)]

/-- Witness for C5: decoding the sample buffer (port 443, 93.184.216.34). -/
theorem original_dst_decode_witness :
    sampleBuf.length = 16 ∧
    (get_original_dst sampleBuf =
      some (256 * sampleBuf.getD 2 0 + sampleBuf.getD 3 0,
        inet_ntoa [sampleBuf.getD 4 0, sampleBuf.getD 5 0, sampleBuf.getD 6 0, sampleBuf.getD 7 0]) ∧
    ∀ buf2 : List Nat, buf2.length = 16 →
      (∀ i : Nat, 2 ≤ i → i ≤ 7 → sampleBuf.getD i 0 = buf2.getD i 0) →
      get_original_dst sampleBuf = get_original_dst buf2) :=
  ⟨rfl, original_dst_decode sampleBuf rfl⟩

/-- C6: when destination resolution fails — `getsockopt` raised (`none`
buffer) or the buffer does not decode (wrong size) — the connection is
aborted: the client socket is closed, no outbound socket is created, the
database is untouched (no `ConnectionRecord`, no `DeviceRecord` change), and
removing the failed session from any accept sequence leaves every other
session's outcome unchanged. -/
theorem resolution_failure_aborts_session (db : TrafficDB) (sip : String) (sp : Nat)
    (t0 t1 : Nat) (ev : SessionEvents) :
    handle_client db ⟨sip, sp, none, t0, ev, t1⟩ = ⟨db, true, false, false⟩ ∧
    (∀ buf : List Nat, buf.length ≠ 16 →
        handle_client db ⟨sip, sp, some buf, t0, ev, t1⟩ = ⟨db, true, false, false⟩) ∧
    (∀ (p : TransparentProxy) (pre post : List SessionCall),
        runProxy p db (pre ++ ⟨sip, sp, none, t0, ev, t1⟩ :: post) =
          runProxy p db (pre ++ post)) := by
  refine ⟨rfl, ?_, ?_⟩
  · intro buf hb
    simp [handle_client, get_original_dst, unpack_2xH4s8x, hb]
  · intro p pre post
    induction pre generalizing db with
    | nil => rfl
    | cons s rest ih =>
        simp only [List.cons_append, runProxy]
        exact ih _

/-- Witness for C6: a concrete connection whose resolution fails (absent
option, and a 3-byte buffer) leaves the empty store empty. -/
theorem resolution_failure_aborts_session_witness :
    ((3 : Nat) ≠ 16 →
        handle_client TrafficDB.empty
          ⟨"10.0.0.9", 42000, some [0, 1, 2], 5, SessionEvents.connectFailure, 6⟩
          = ⟨TrafficDB.empty, true, false, false⟩) ∧
    handle_client TrafficDB.empty ⟨"10.0.0.9", 42000, none, 5, SessionEvents.connectFailure, 6⟩
      = ⟨TrafficDB.empty, true, false, false⟩ := by
  have h := resolution_failure_aborts_session TrafficDB.empty "10.0.0.9" 42000 5 6
    SessionEvents.connectFailure
  exact ⟨fun hne => h.2.1 [0, 1, 2] hne, h.1⟩

/-- C7: when the outbound connect fails or times out, the session is aborted:
the client socket is closed, the database is untouched (zero records, zero
device mutations), and the outbound socket object that was created before the
connect attempt is closed by the teardown path, so no file descriptor is left
open. -/
theorem connect_failure_aborts_session (db : TrafficDB) (sip : String) (sp : Nat)
    (buf : List Nat) (t0 t1 : Nat) (hlen : buf.length = 16) :
    handle_client db ⟨sip, sp, some buf, t0, SessionEvents.connectFailure, t1⟩ =
      ⟨db, true, true, true⟩ := by
  simp [handle_client, get_original_dst_of_length buf hlen]

/-- Witness for C7: a concrete connect failure against the empty store. -/
theorem connect_failure_aborts_session_witness :
    sampleBuf.length = 16 ∧
    handle_client TrafficDB.empty
      ⟨"10.0.0.2", 43000, some sampleBuf, 7, SessionEvents.connectFailure, 8⟩
      = ⟨TrafficDB.empty, true, true, true⟩ :=
  ⟨rfl, connect_failure_aborts_session TrafficDB.empty "10.0.0.2" 43000 sampleBuf 7 8 rfl⟩

/-- C8: a mid-stream read or write failure on one relay direction ends only
that direction: the bytes it had already forwarded stay in its counter, the
other direction is accounted from its own full trace, and the session is
still handed to the accounting sink — exactly one `ConnectionRecord` is
persisted. -/
theorem relay_error_keeps_counters (db : TrafficDB) (sip : String) (sp : Nat)
    (buf : List Nat) (t0 tc t1 : Nat) (pre : List Chunk) (e : SockEvent)
    (rest stoc : List SockEvent) (hlen : buf.length = 16)
    (herr : e = SockEvent.recvFail ∨ ∃ d, e = SockEvent.sendFail d) :
    ∃ rec : Connection,
      (handle_client db ⟨sip, sp, some buf, t0,
          SessionEvents.relay tc (pre.map SockEvent.ok ++ e :: rest) stoc, t1⟩).db.connections
        = db.connections ++ [rec] ∧
      rec.bytes_sent = chunkTotal pre ∧
      rec.bytes_received = chunkTotal (forwardedChunks stoc) := by
  rw [handle_client_relay db sip sp buf t0 tc t1 (pre.map SockEvent.ok ++ e :: rest) stoc hlen,
    forwardedChunks_error pre e rest herr]
  exact ⟨_, rfl, rfl, rfl⟩

/-- Witness for C8: the client direction forwards 2 bytes then hits a read
error; the session is still persisted with those 2 bytes. -/
theorem relay_error_keeps_counters_witness :
    sampleBuf.length = 16 ∧
    (SockEvent.recvFail = SockEvent.recvFail ∨ ∃ d, SockEvent.recvFail = SockEvent.sendFail d) ∧
    (∃ rec : Connection,
      (handle_client TrafficDB.empty ⟨"10.0.0.3", 44000, some sampleBuf, 2,
          SessionEvents.relay 3 ([[7, 8]].map SockEvent.ok ++ SockEvent.recvFail :: [])
            [SockEvent.eof], 5⟩).db.connections
        = TrafficDB.empty.connections ++ [rec] ∧
      rec.bytes_sent = chunkTotal [[7, 8]] ∧
      rec.bytes_received = chunkTotal (forwardedChunks [SockEvent.eof])) :=
  ⟨rfl, Or.inl rfl,
    relay_error_keeps_counters TrafficDB.empty "10.0.0.3" 44000 sampleBuf 2 3 5 [[7, 8]]
      SockEvent.recvFail [] [SockEvent.eof] rfl (Or.inl rfl)⟩

/-- Counterexample to C9 as stated: `start_time` is recorded when `conn_log`
is built, before the outbound connect.  In a session that resolves at tick 0,
completes its connect at tick 5 and is logged at tick 8, the persisted
duration is 8, not the 3 that the wall-clock time from successful connect to
completion would give. -/
theorem duration_includes_connect_counterexample :
    ((handle_client TrafficDB.empty
        ⟨"10.0.0.8", 40001, some sampleBuf, 0,
          SessionEvents.relay 5 [SockEvent.eof] [SockEvent.eof], 8⟩).db.connections.map
        Connection.duration = [(8 : Int)]) ∧ (8 : Int) ≠ 8 - 5 := by
  exact ⟨rfl, by decide⟩

/-- C9 amended: the persisted `duration` equals the wall-clock time between
the creation of the session's log (after destination resolution, before the
outbound connect begins) and the accounting moment after both directions have
ended; it is non-negative whenever the clock did not go backwards. -/
theorem duration_spans_whole_session (db : TrafficDB) (sip : String) (sp : Nat)
    (buf : List Nat) (t0 tc t1 : Nat) (ctos stoc : List SockEvent)
    (hlen : buf.length = 16) :
    ∃ rec : Connection,
      (handle_client db ⟨sip, sp, some buf, t0, SessionEvents.relay tc ctos stoc, t1⟩).db.connections
        = db.connections ++ [rec] ∧
      rec.duration = (t1 : Int) - (t0 : Int) ∧
      (t0 ≤ t1 → 0 ≤ rec.duration) := by
  rw [handle_client_relay db sip sp buf t0 tc t1 ctos stoc hlen]
  refine ⟨_, rfl, rfl, ?_⟩
  intro h
  exact sub_nonneg.mpr (by exact_mod_cast h)

/-- Witness for C9 amended: a session logged at tick 15 whose log was built
at tick 10 records duration 5. -/
theorem duration_spans_whole_session_witness :
    sampleBuf.length = 16 ∧
    (∃ rec : Connection,
      (handle_client TrafficDB.empty
        ⟨"10.0.0.4", 45000, some sampleBuf, 10,
          SessionEvents.relay 11 [SockEvent.eof] [SockEvent.eof], 15⟩).db.connections
        = TrafficDB.empty.connections ++ [rec] ∧
      rec.duration = ((15 : Nat) : Int) - ((10 : Nat) : Int) ∧
      ((10 : Nat) ≤ (15 : Nat) → 0 ≤ rec.duration)) :=
  ⟨rfl, duration_spans_whole_session TrafficDB.empty "10.0.0.4" 45000 sampleBuf 10 11 15
    [SockEvent.eof] [SockEvent.eof] rfl⟩

/-- C10: the proxy's in-memory active-connection registry
(`self.connections`, initialised to the empty dict) is never written by any
operation: dispatching any sequence of sessions leaves the proxy object
unchanged, so the registry stays empty for the proxy's entire lifetime. -/
theorem connection_registry_never_written (port : Nat) (db : TrafficDB)
    (ss : List SessionCall) :
    (runProxy (TransparentProxy.init port) db ss).1.connections = [] ∧
    ∀ (p : TransparentProxy) (db2 : TrafficDB), (runProxy p db2 ss).1 = p := by
  constructor
  · rw [runProxy_fst]; rfl
  · intro p db2
    exact runProxy_fst ss p db2
